import Mathlib

/-
Verification of the Eventbrite monitor (`src/main.py`, class `EventbriteMonitor`).

The development shallowly embeds the availability classifier of
`check_event_availability` (regex matching over the lowercased page text plus
the button heuristics), the status records it returns, and the per-event
monitoring loop of `monitor_events` (trigger / verify / suppress plus the
per-target scheduling guard), and proves the spec's testable properties
against these definitions.
-/

/-- ASCII approximation of the character class matched by the regex escape
for whitespace in the source's patterns (`main.py` lines 130-137 and 182-186). -/
def isSpaceChar (c : Char) : Bool :=
  c = ' ' || c = '\t' || c = '\n' || c = '\x0b' || c = '\x0c' || c = '\r'

/-- ASCII approximation of the regex word-character class, used by the
word-boundary anchors of `sold_out_patterns` and `quantity_patterns`. -/
def isWordChar (c : Char) : Bool :=
  c.isAlphanum || c = '_'

/-- One token of the regular expressions appearing in `check_event_availability`:
a literal string, a one-or-more whitespace gap, or an optional character. -/
inductive Tok where
  | lit : List Char → Tok
  | ws : Tok
  | opt : Char → Tok
deriving DecidableEq

/-- A pattern from `main.py`: token sequence plus word-boundary anchors at the
start and end (regexes there are anchored either on both sides or not at all). -/
structure Pattern where
  bStart : Bool
  toks : List Tok
  bEnd : Bool
deriving DecidableEq

/-- All ways for a one-or-more whitespace gap to consume a non-empty prefix
of `t`; each result is the remaining text. -/
def wsDrops : List Char → List (List Char)
  | [] => []
  | c :: rest => if isSpaceChar c then rest :: wsDrops rest else []

/-- All remainders after one token matches a prefix of `t`. -/
def matchTok : Tok → List Char → List (List Char)
  | Tok.lit s, t => if s.isPrefixOf t then [t.drop s.length] else []
  | Tok.ws, t => wsDrops t
  | Tok.opt c, t =>
    match t with
    | [] => [([] : List Char)]
    | c2 :: rest => if c2 = c then [rest, c2 :: rest] else [c2 :: rest]

/-- A word boundary holds after the last matched character (which is a word
character in every anchored source pattern) iff the rest of the text does not
begin with a word character. -/
def wordBoundaryEnd (t : List Char) : Bool :=
  match t with
  | [] => true
  | c :: _ => !isWordChar c

/-- Does the token list match a prefix of `t` (respecting a trailing word
boundary when `bEnd` is set)? -/
def matchToks : List Tok → Bool → List Char → Bool
  | [], bEnd, t => !bEnd || wordBoundaryEnd t
  | tok :: rest, bEnd, t => (matchTok tok t).any (matchToks rest bEnd)

/-- A word boundary holds before the first matched character (a word character
in every anchored source pattern) iff the preceding character, if any, is not
a word character. -/
def boundaryStartOk (bStart : Bool) (prev : Option Char) : Bool :=
  !bStart || (match prev with
              | none => true
              | some c => !isWordChar c)

/-- Scan all start positions, keeping track of the previous character for the
word-boundary test; mirrors how the regex search of the source scans the text. -/
def searchAux (p : Pattern) : Option Char → List Char → Bool
  | prev, [] => boundaryStartOk p.bStart prev && matchToks p.toks p.bEnd []
  | prev, c :: rest =>
    (boundaryStartOk p.bStart prev && matchToks p.toks p.bEnd (c :: rest)) ||
      searchAux p (some c) rest

/-- The embedding of a regex search over the page text. -/
def search (p : Pattern) (t : List Char) : Bool :=
  searchAux p none t

/-- The sold-out phrases of `sold_out_patterns` (`main.py` 113-124); each source
regex is the phrase anchored by word boundaries on both sides, with literal
single spaces between words. -/
def soldOutPhrases : List String :=
  ["sold out", "registration closed", "tickets unavailable", "event has ended",
   "registration is closed", "no longer available", "unavailable", "sales ended",
   "sale has ended", "events ended"]

/-- `sold_out_patterns` (`main.py` 113-124). -/
def sold_out_patterns : List Pattern :=
  soldOutPhrases.map (fun s => ⟨true, [Tok.lit s.toList], true⟩)

/-- The purchase-intent regexes of `availability_patterns` (`main.py` 130-137),
given as word lists: each source regex is the words joined by one-or-more
whitespace gaps, with no word-boundary anchors. -/
def availabilityPhraseWords : List (List String) :=
  [["select", "date", "and", "time"], ["reserve", "a", "spot"], ["get", "tickets"],
   ["buy", "now"], ["purchase", "tickets"], ["register", "now"]]

/-- Join words with one-or-more whitespace tokens between them. -/
def wordToks : List String → List Tok
  | [] => []
  | [w] => [Tok.lit w.toList]
  | w :: v :: rest => Tok.lit w.toList :: Tok.ws :: wordToks (v :: rest)

/-- `availability_patterns` (`main.py` 130-137). -/
def availability_patterns : List Pattern :=
  availabilityPhraseWords.map (fun wl => ⟨false, wordToks wl, false⟩)

/-- The literal word used in the zero-remaining quantity patterns. -/
def remWord : List Char := "remaining".toList

/-- The literal word before the optional plural in the second quantity pattern. -/
def ticketWord : List Char := "ticket".toList

/-- The literal word before the optional plural in the third quantity pattern. -/
def spotWord : List Char := "spot".toList

/-- `quantity_patterns` (`main.py` 182-186): zero remaining, zero tickets
remaining, zero spots remaining, each anchored by word boundaries. -/
def quantity_patterns : List Pattern :=
  [⟨true, [Tok.lit ['0'], Tok.ws, Tok.lit remWord], true⟩,
   ⟨true, [Tok.lit ['0'], Tok.ws, Tok.lit ticketWord, Tok.opt 's', Tok.ws, Tok.lit remWord], true⟩,
   ⟨true, [Tok.lit ['0'], Tok.ws, Tok.lit spotWord, Tok.opt 's', Tok.ws, Tok.lit remWord], true⟩]

/-- The Python substring test used for button text and class markers
(`word in button_text`, `marker in button_classes`). -/
def containsSub (needle hay : List Char) : Bool :=
  decide (needle <:+: hay)

/-- One interactive element matched by the `ticket_selectors` queries
(`main.py` 142-162), with the fields exactly as the code reads them: the
element text and the joined class string are already lowercased, and
`disabledAttr` is the truthiness of the element's disabled attribute. -/
structure Control where
  text : List Char
  classes : List Char
  disabledAttr : Bool
deriving DecidableEq

/-- The ticket-intent words tested against a button's own text (`main.py` 171-172). -/
def ticketWords : List String :=
  ["ticket", "register", "get tickets", "buy now", "purchase", "reserve a spot"]

/-- The class markers that make a button disabled (`main.py` 165-168). -/
def disabledMarkers : List String :=
  ["disabled", "sold-out", "unavailable"]

/-- `is_disabled` for one button (`main.py` 165-168): disabled attribute set, or
a disabling marker occurs in the joined class string. -/
def is_disabled (c : Control) : Bool :=
  c.disabledAttr || disabledMarkers.any (fun m => containsSub m.toList c.classes)

/-- `has_ticket_text` for one button (`main.py` 171-172). -/
def has_ticket_text (c : Control) : Bool :=
  ticketWords.any (fun w => containsSub w.toList c.text)

/-- The filter of `main.py` 174: a button is appended to `available_buttons`
iff it has ticket text and is not disabled. -/
def controlEligible (c : Control) : Bool :=
  has_ticket_text c && !is_disabled c

/-- Parser-level snapshot of one event page, as extracted in
`check_event_availability` (`main.py` 103-179): `text` is the lowercased page
text, `controls` the elements found by the ticket selectors in selector order,
and `soldOutElementCount` the number of elements whose class string matches
the sold-out/unavailable class query of line 178. -/
structure Page where
  text : List Char
  controls : List Control
  soldOutElementCount : Nat
deriving DecidableEq

/-- `is_sold_out_text` (`main.py` 127). -/
def is_sold_out_text (t : List Char) : Bool :=
  sold_out_patterns.any (fun q => search q t)

/-- `has_availability_text` (`main.py` 139). -/
def has_availability_text (t : List Char) : Bool :=
  availability_patterns.any (fun q => search q t)

/-- `has_zero_remaining` (`main.py` 187). -/
def has_zero_remaining (t : List Char) : Bool :=
  quantity_patterns.any (fun q => search q t)

/-- `has_sold_out_elements` (`main.py` 178-179). -/
def has_sold_out_elements (p : Page) : Bool :=
  decide (0 < p.soldOutElementCount)

/-- `available_buttons` (`main.py` 154-175). -/
def available_buttons (p : Page) : List Control :=
  p.controls.filter controlEligible

/-- The disjunction of the three sold-out findings, grouped exactly as in
`main.py` 190-192 (the spec calls this composite `soldOutSignal`). -/
def soldOutSignal (p : Page) : Bool :=
  is_sold_out_text p.text || has_sold_out_elements p || has_zero_remaining p.text

/-- `is_definitely_sold_out` (`main.py` 190-192). -/
def is_definitely_sold_out (p : Page) : Bool :=
  soldOutSignal p && !has_availability_text p.text

/-- `is_available` (`main.py` 195). -/
def is_available (p : Page) : Bool :=
  (has_availability_text p.text || decide (0 < (available_buttons p).length)) &&
    !is_definitely_sold_out p

/-- The status dictionary returned by `check_event_availability`
(`main.py` 197-209, 218-224, 227-233). Fields that the error dictionaries of
lines 218-224 and 227-233 do not contain are modelled as `Option` values,
`none` meaning the key is absent. -/
structure Status where
  url : String
  title : String
  available : Bool
  sold_out : Option Bool
  total_buttons_found : Option Nat
  available_buttons_count : Option Nat
  sold_out_text_found : Option Bool
  sold_out_elements_found : Option Bool
  zero_remaining_found : Option Bool
  availability_text_found : Option Bool
  checked_at : Nat
  error : Option String
deriving DecidableEq

/-- Outcome of the fetch-and-parse preamble of `check_event_availability`:
a parsed page with its best-effort title, a network failure
(`requests.RequestException`, lines 216-224), or any other exception
(lines 225-233). -/
inductive FetchOutcome where
  | ok : String → Page → FetchOutcome
  | fetchErr : String → FetchOutcome
  | otherErr : String → FetchOutcome
deriving DecidableEq

/-- Title of the network-failure status (`main.py` 220). -/
def netErrorTitle : String := "Error - Network Issue"

/-- Title of the other-failure status (`main.py` 229). -/
def parseErrorTitle : String := "Error - Parse Issue"

/-- `check_event_availability` (`main.py` 81-233) as a total function of the
fetch outcome: the checker catches every failure and returns a status record. -/
def check_event_availability (url : String) (now : Nat) : FetchOutcome → Status
  | FetchOutcome.ok title p =>
    { url := url, title := title, available := is_available p,
      sold_out := some (is_definitely_sold_out p),
      total_buttons_found := some p.controls.length,
      available_buttons_count := some (available_buttons p).length,
      sold_out_text_found := some (is_sold_out_text p.text),
      sold_out_elements_found := some (has_sold_out_elements p),
      zero_remaining_found := some (has_zero_remaining p.text),
      availability_text_found := some (has_availability_text p.text),
      checked_at := now, error := none }
  | FetchOutcome.fetchErr e =>
    { url := url, title := netErrorTitle, available := false,
      sold_out := none, total_buttons_found := none, available_buttons_count := none,
      sold_out_text_found := none, sold_out_elements_found := none,
      zero_remaining_found := none, availability_text_found := none,
      checked_at := now, error := some e }
  | FetchOutcome.otherErr e =>
    { url := url, title := parseErrorTitle, available := false,
      sold_out := none, total_buttons_found := none, available_buttons_count := none,
      sold_out_text_found := none, sold_out_elements_found := none,
      zero_remaining_found := none, availability_text_found := none,
      checked_at := now, error := some e }

/-- The per-event configuration dictionary of `monitored_events`
(`main.py` 275-280 and the mutations in `monitor_events`). `last_status`
records the `available` flag of the stored status (the only part of the
stored status the loop's control flow reads); `last_call_sid` and
`call_made_at` are `none` when the key is absent or was reset to `None`. -/
structure EvState where
  interval : Nat
  last_check : Nat
  last_status : Option Bool
  alert_sent : Bool
  last_call_sid : Option Nat
  call_made_at : Option Nat
deriving DecidableEq

/-- Environment of one pass of the `monitor_events` loop body for one event:
the loop's `current_time`, the `available` flag of the status returned by the
checker, the call SID returned by `make_alert_call` (`none` when placement
failed, `main.py` 263-265), and the boolean returned by `check_call_answered`
(`false` also on a gateway query error, `main.py` 355-357). -/
structure TickIn where
  now : Nat
  avail : Bool
  callSid : Option Nat
  answered : Bool
deriving DecidableEq

/-- `add_event` (`main.py` 267-281): fresh registration state. -/
def add_event (interval : Nat) : EvState :=
  { interval := interval, last_check := 0, last_status := none,
    alert_sent := false, last_call_sid := none, call_made_at := none }

/-- The scheduling guard of `main.py` 300-302: the event is checked iff the
time since the last check reaches its interval. -/
def checkDue (s : EvState) (i : TickIn) : Bool :=
  decide (s.interval ≤ i.now - s.last_check)

/-- The alert trigger, `main.py` 306-315: if the status is available and no
alert is marked sent, `make_alert_call` is invoked (second component `true`);
on success the SID and placement time are stored. -/
def triggerStep (s : EvState) (i : TickIn) : EvState × Bool :=
  if i.avail && !s.alert_sent then
    match i.callSid with
    | some sid => ({ s with last_call_sid := some sid, call_made_at := some i.now }, true)
    | none => (s, true)
  else (s, false)

/-- The answer verification, `main.py` 317-329: when a call SID is stored and
more than 120 seconds passed since placement, an answered call sets
`alert_sent`, an unanswered one clears the SID and placement time. -/
def verifyStep (s : EvState) (i : TickIn) : EvState :=
  if s.last_call_sid.isSome && decide (120 < i.now - s.call_made_at.getD 0) then
    if i.answered then { s with alert_sent := true }
    else { s with last_call_sid := none, call_made_at := none }
  else s

/-- One pass of the `monitor_events` loop body for one due-tested event
(`main.py` 297-333): when due, run the trigger then the verification, then
record the check time and status; the second component reports whether the
alert-call gateway was invoked in this pass. -/
def stepEvent (s : EvState) (i : TickIn) : EvState × Bool :=
  if checkDue s i then
    ({ verifyStep (triggerStep s i).1 i with last_check := i.now, last_status := some i.avail },
      (triggerStep s i).2)
  else (s, false)

/-- The times of all ticks of a run at which the alert-call gateway is
invoked for this event. -/
def placedTimes (s : EvState) : List TickIn → List Nat
  | [] => []
  | i :: rest =>
    (if (stepEvent s i).2 then [i.now] else []) ++ placedTimes (stepEvent s i).1 rest

/-- The event state after a run of loop passes. -/
def runEvent (s : EvState) : List TickIn → EvState
  | [] => s
  | i :: rest => runEvent (stepEvent s i).1 rest

/-- Per-target input of one scheduler tick, together with whether processing
this target raises an exception somewhere in the loop body. -/
structure TargetIn where
  tick : TickIn
  raises : Bool
deriving DecidableEq

/-- The try/except wrapper of `main.py` 298-336: an exception from one
target's processing is caught and logged, leaving that target's state. -/
def catchStep (s : EvState) (t : TargetIn) : EvState :=
  if t.raises then s else (stepEvent s t.tick).1

/-- One full scheduler tick over the registry (`main.py` 297-336): every
registered target is processed in order, each inside its own try/except. -/
def runTick (ss : List EvState) (ts : List TargetIn) : List EvState :=
  List.zipWith catchStep ss ts

/-- The outer monitoring loop (`main.py` 294-339): one `runTick` per wake-up,
for as long as monitoring continues. -/
def runLoop (ss : List EvState) : List (List TargetIn) → List EvState
  | [] => ss
  | ts :: rest => runLoop (runTick ss ts) rest

/-- The characters of a word list joined by single spaces: the literal phrase
corresponding to one of the purchase-intent regexes. -/
def joinWords : List String → List Char
  | [] => []
  | [w] => w.toList
  | w :: v :: rest => w.toList ++ ' ' :: joinWords (v :: rest)

/-- The canonical text matched by a token list, realising each whitespace gap
as a single space and skipping optional characters. -/
def flatToks : List Tok → List Char
  | [] => []
  | Tok.lit s :: rest => s ++ flatToks rest
  | Tok.ws :: rest => ' ' :: flatToks rest
  | Tok.opt _ :: rest => flatToks rest

/-- Concrete page whose text carries both a sold-out phrase and a
purchase-intent phrase, plus a sold-out-marked element. -/
def examplePage2 : Page :=
  { text := "june community day sold out but you can still get tickets for july".toList,
    controls := [], soldOutElementCount := 1 }

/-- Concrete page showing only sold-out phrases. -/
def examplePage3 : Page :=
  { text := "sold out - registration closed".toList, controls := [], soldOutElementCount := 0 }

/-- A control with ticket-intent text that is nevertheless marked sold out by
its class string. -/
def exampleControlBad : Control :=
  { text := "get tickets".toList, classes := "btn sold-out".toList, disabledAttr := false }

/-- Neutral page text used in the control examples. -/
def exampleText4 : List Char := "nothing to see here".toList

/-- Concrete page carrying only the ineligible control. -/
def examplePage4a : Page := ⟨exampleText4, [exampleControlBad], 0⟩

/-- The same page without the ineligible control. -/
def examplePage4b : Page := ⟨exampleText4, [], 0⟩

/-- Concrete available page with no controls. -/
def examplePage10 : Page :=
  { text := "get tickets".toList, controls := [], soldOutElementCount := 0 }

/-- Concrete event address used in checker examples. -/
def exampleUrl : String := "https://www.eventbrite.com/e/example-event"

/-- Concrete failure description used in checker examples. -/
def exampleErr : String := "connection timed out"

/-- Concrete event title used in checker examples. -/
def exampleTitle : String := "community day"

/-- A registration with a 60-second interval, below the 120-second window. -/
def c1state : EvState := add_event 60

/-- First due tick for the short-interval registration: available, placement
succeeds. -/
def c1tickA : TickIn := { now := 1000, avail := true, callSid := some 1, answered := false }

/-- Second due tick, 60 seconds later: available again, placement succeeds. -/
def c1tickB : TickIn := { now := 1060, avail := true, callSid := some 2, answered := false }

/-- A registration with the default 1800-second interval. -/
def c1goodState : EvState := add_event 1800

/-- A due available tick for the default-interval registration. -/
def c1goodTick : TickIn := { now := 2000, avail := true, callSid := some 7, answered := false }

/-- A later run in which the next due tick is 1900 seconds after placement. -/
def c1goodRest : List TickIn :=
  [{ now := 3900, avail := true, callSid := some 8, answered := false }]

/-- An event with a stored pending call placed at time 100. -/
def c5state : EvState :=
  { interval := 1800, last_check := 0, last_status := some true,
    alert_sent := false, last_call_sid := some 5, call_made_at := some 100 }

/-- A due tick long after placement, unavailable status, answered call. -/
def c5tick : TickIn := { now := 1800, avail := false, callSid := none, answered := true }

/-- A later run with an available due tick. -/
def c5rest : List TickIn :=
  [{ now := 4000, avail := true, callSid := some 9, answered := false }]

/-- A default-interval registration last checked at time 100. -/
def c8state : EvState := { add_event 1800 with last_check := 100 }

/-- A tick exactly 1800 seconds after the last check. -/
def c8tick : TickIn := { now := 1900, avail := false, callSid := none, answered := false }

/-- Registry of two default-interval targets. -/
def c9states : List EvState := [add_event 1800, add_event 1800]

/-- One tick's inputs for the two targets; processing the first raises. -/
def c9ins : List TargetIn :=
  [{ tick := { now := 2000, avail := true, callSid := none, answered := false }, raises := true },
   { tick := { now := 2500, avail := true, callSid := some 3, answered := false }, raises := false }]

theorem isPrefixOf_append_self (s x : List Char) : s.isPrefixOf (s ++ x) = true := by
  induction s with
  | nil => simp [List.isPrefixOf]
  | cons a s ih => simp [List.isPrefixOf, ih]

theorem mem_matchTok_opt (c : Char) (t : List Char) : t ∈ matchTok (Tok.opt c) t := by
  cases t with
  | nil => simp [matchTok]
  | cons a r => by_cases h : a = c <;> simp [matchTok, h]

theorem matchToks_flat (toks : List Tok) : ∀ r : List Char,
    matchToks toks false (flatToks toks ++ r) = true := by
  induction toks with
  | nil => intro r; simp [matchToks, flatToks]
  | cons tok rest ih =>
    intro r
    cases tok with
    | lit s =>
      show matchToks (Tok.lit s :: rest) false ((s ++ flatToks rest) ++ r) = true
      rw [List.append_assoc]
      simp [matchToks, matchTok, isPrefixOf_append_self, List.drop_left, ih r]
    | ws =>
      show matchToks (Tok.ws :: rest) false ((' ' :: flatToks rest) ++ r) = true
      simp [matchToks, matchTok, wsDrops, isSpaceChar, ih r]
    | opt c =>
      show matchToks (Tok.opt c :: rest) false (flatToks rest ++ r) = true
      simp only [matchToks]
      exact List.any_eq_true.mpr ⟨flatToks rest ++ r, mem_matchTok_opt c _, ih r⟩

theorem searchAux_append (p : Pattern) (hb : p.bStart = false) :
    ∀ (l : List Char) (prev : Option Char) (s : List Char),
      matchToks p.toks p.bEnd s = true → searchAux p prev (l ++ s) = true := by
  intro l
  induction l with
  | nil =>
    intro prev s h
    cases s with
    | nil => simp [searchAux, boundaryStartOk, hb, h]
    | cons c r => simp [searchAux, boundaryStartOk, hb, h]
  | cons a l ih =>
    intro prev s h
    show searchAux p prev (a :: (l ++ s)) = true
    simp only [searchAux, Bool.or_eq_true]
    exact Or.inr (ih (some a) s h)

theorem flatToks_wordToks (wl : List String) : flatToks (wordToks wl) = joinWords wl := by
  induction wl with
  | nil => simp [wordToks, joinWords, flatToks]
  | cons w rest ih =>
    cases rest with
    | nil => simp [wordToks, joinWords, flatToks]
    | cons v rest2 =>
      show flatToks (Tok.lit w.toList :: Tok.ws :: wordToks (v :: rest2)) =
        joinWords (w :: v :: rest2)
      simp [flatToks, joinWords, ih]

/-- Claim C2: every page text containing one of the six purchase-intent
phrases is classified available, regardless of sold-out phrases,
sold-out-marked elements, or zero-remaining patterns also present. -/
theorem c2_purchase_intent_wins (p : Page)
    (h : availabilityPhraseWords.any (fun wl => containsSub (joinWords wl) p.text) = true) :
    is_available p = true := by
  obtain ⟨wl, hmem, hwl⟩ := List.any_eq_true.mp h
  simp only [containsSub] at hwl
  obtain ⟨l, r, hlr⟩ := of_decide_eq_true hwl
  have hmatch : matchToks (wordToks wl) false (joinWords wl ++ r) = true := by
    rw [← flatToks_wordToks]
    exact matchToks_flat (wordToks wl) r
  have hsearch : search ⟨false, wordToks wl, false⟩ p.text = true := by
    show searchAux ⟨false, wordToks wl, false⟩ none p.text = true
    rw [← hlr, List.append_assoc]
    exact searchAux_append _ rfl l none _ hmatch
  have havail : has_availability_text p.text = true := by
    show availability_patterns.any (fun q => search q p.text) = true
    exact List.any_eq_true.mpr
      ⟨⟨false, wordToks wl, false⟩,
       List.mem_map_of_mem (fun wl => (⟨false, wordToks wl, false⟩ : Pattern)) hmem, hsearch⟩
  simp [is_available, is_definitely_sold_out, havail]

theorem c2_witness :
    availabilityPhraseWords.any (fun wl => containsSub (joinWords wl) examplePage2.text) = true ∧
    is_available examplePage2 = true :=
  ⟨by decide, c2_purchase_intent_wins examplePage2 (by decide)⟩

/-- Claim C3: a page text containing a sold-out phrase (as a whole-word
phrase, matching the boundary-anchored source patterns), with no
purchase-intent phrase and no eligible control, is classified unavailable
with the sold-out signal set. -/
theorem c3_sold_out_wins (p : Page)
    (h1 : is_sold_out_text p.text = true)
    (h2 : has_availability_text p.text = false)
    (h3 : available_buttons p = []) :
    is_available p = false ∧ soldOutSignal p = true := by
  constructor
  · simp [is_available, is_definitely_sold_out, soldOutSignal, h1, h2, h3]
  · simp [soldOutSignal, h1]

theorem c3_witness :
    is_sold_out_text examplePage3.text = true ∧
    has_availability_text examplePage3.text = false ∧
    available_buttons examplePage3 = [] ∧
    (is_available examplePage3 = false ∧ soldOutSignal examplePage3 = true) :=
  ⟨by decide, by decide, by decide,
   c3_sold_out_wins examplePage3 (by decide) (by decide) (by decide)⟩

/-- Claim C4: a control is eligible iff its own text contains a ticket-intent
word and it is not marked disabled, sold-out, or unavailable by attribute or
class; only eligible controls are counted, and a control lacking either
property never changes the availability verdict. -/
theorem c4_control_eligibility (c : Control) (t : List Char) (cs : List Control) (n : Nat) :
    (controlEligible c = true ↔ (has_ticket_text c = true ∧ is_disabled c = false)) ∧
    available_buttons ⟨t, c :: cs, n⟩ =
      (if controlEligible c = true then [c] else []) ++ available_buttons ⟨t, cs, n⟩ ∧
    (controlEligible c = false → is_available ⟨t, c :: cs, n⟩ = is_available ⟨t, cs, n⟩) := by
  refine ⟨?_, ?_, ?_⟩
  · simp [controlEligible, Bool.and_eq_true, Bool.not_eq_true']
  · simp only [available_buttons, List.filter_cons]
    split <;> simp
  · intro hc
    simp [is_available, is_definitely_sold_out, soldOutSignal, available_buttons,
          has_sold_out_elements, List.filter_cons, hc]

theorem c4_witness :
    controlEligible exampleControlBad = false ∧
    is_available examplePage4a = is_available examplePage4b :=
  ⟨by decide,
   (c4_control_eligibility exampleControlBad exampleText4 [] 0).2.2 (by decide)⟩

theorem triggerStep_interval (s : EvState) (i : TickIn) :
    (triggerStep s i).1.interval = s.interval := by
  unfold triggerStep
  split
  · cases hc : i.callSid <;> simp
  · rfl

theorem verifyStep_interval (s : EvState) (i : TickIn) :
    (verifyStep s i).interval = s.interval := by
  unfold verifyStep
  split
  · split <;> rfl
  · rfl

theorem stepEvent_interval (s : EvState) (i : TickIn) :
    (stepEvent s i).1.interval = s.interval := by
  unfold stepEvent
  split
  · show (verifyStep (triggerStep s i).1 i).interval = s.interval
    rw [verifyStep_interval, triggerStep_interval]
  · rfl

theorem stepEvent_not_due (s : EvState) (i : TickIn) (h : checkDue s i = false) :
    stepEvent s i = (s, false) := by
  unfold stepEvent
  rw [h]
  simp

theorem checkDue_lower (s : EvState) (i : TickIn) (h : checkDue s i = true)
    (hpos : 1 ≤ s.interval) : s.last_check + s.interval ≤ i.now := by
  have hd : s.interval ≤ i.now - s.last_check := of_decide_eq_true h
  omega

theorem placedTimes_lower (l : List TickIn) : ∀ (s : EvState) (B : Nat),
    1 ≤ s.interval → B ≤ s.last_check + s.interval →
    ∀ t ∈ placedTimes s l, B ≤ t := by
  induction l with
  | nil =>
    intro s B _ _ t ht
    simp [placedTimes] at ht
  | cons i rest ih =>
    intro s B hi hinv t ht
    by_cases hdue : checkDue s i = true
    · have hnow : s.last_check + s.interval ≤ i.now := checkDue_lower s i hdue hi
      have hmem : t ∈ (if (stepEvent s i).2 then [i.now] else []) ++
          placedTimes (stepEvent s i).1 rest := ht
      rcases List.mem_append.mp hmem with h1 | h2
      · have ht' : t = i.now := by
          by_cases hp : (stepEvent s i).2 = true <;> simp [hp] at h1
          exact h1
        omega
      · refine ih (stepEvent s i).1 B ?_ ?_ t h2
        · rw [stepEvent_interval]; exact hi
        · have hlc : (stepEvent s i).1.last_check = i.now := by
            unfold stepEvent
            rw [hdue]
            simp
          rw [stepEvent_interval, hlc]
          omega
    · have hni : checkDue s i = false := by
        simpa using hdue
      have hmem : t ∈ (if (stepEvent s i).2 then [i.now] else []) ++
          placedTimes (stepEvent s i).1 rest := ht
      rw [stepEvent_not_due s i hni] at hmem
      simp at hmem
      exact ih s B hi hinv t hmem

/-- Claim C1 (amended): from the idle state, a due available check with
successful call placement stores the call reference and placement time; every
later gateway invocation for this target happens at least the target's
(positive) check interval after that placement, so for intervals of at least
120 seconds (including the default 1800) no second call is placed before 120
seconds have elapsed. -/
theorem c1_trigger_then_quiet (s : EvState) (i : TickIn) (rest : List TickIn) (sid t : Nat)
    (hsent : s.alert_sent = false) (hsid : s.last_call_sid = none)
    (hpos : 1 ≤ s.interval) (hdue : checkDue s i = true)
    (hav : i.avail = true) (hcall : i.callSid = some sid)
    (ht : t ∈ placedTimes (stepEvent s i).1 rest) :
    (stepEvent s i).2 = true ∧
    (stepEvent s i).1.last_call_sid = some sid ∧
    (stepEvent s i).1.call_made_at = some i.now ∧
    i.now + s.interval ≤ t ∧
    (120 ≤ s.interval → i.now + 120 ≤ t) := by
  have htr : triggerStep s i =
      ({ s with last_call_sid := some sid, call_made_at := some i.now }, true) := by
    unfold triggerStep
    rw [hav, hsent, hcall]
    simp
  have hver : verifyStep ({ s with last_call_sid := some sid, call_made_at := some i.now }) i =
      { s with last_call_sid := some sid, call_made_at := some i.now } := by
    unfold verifyStep
    simp
  have hse : stepEvent s i =
      ({ s with
          last_call_sid := some sid
          call_made_at := some i.now
          last_check := i.now
          last_status := some i.avail }, true) := by
    unfold stepEvent
    rw [hdue, htr]
    simp [hver]
  rw [hse] at ht ⊢
  have hbound : i.now + s.interval ≤ t :=
    placedTimes_lower rest
      ({ s with
          last_call_sid := some sid
          call_made_at := some i.now
          last_check := i.now
          last_status := some i.avail }) (i.now + s.interval) hpos
      (le_refl (i.now + s.interval)) t ht
  refine ⟨rfl, rfl, rfl, hbound, ?_⟩
  intro h120
  omega

theorem c1_witness :
    c1goodState.alert_sent = false ∧ c1goodState.last_call_sid = none ∧
    1 ≤ c1goodState.interval ∧ checkDue c1goodState c1goodTick = true ∧
    c1goodTick.avail = true ∧ c1goodTick.callSid = some 7 ∧
    3900 ∈ placedTimes (stepEvent c1goodState c1goodTick).1 c1goodRest ∧
    120 ≤ c1goodState.interval ∧
    ((stepEvent c1goodState c1goodTick).2 = true ∧
     (stepEvent c1goodState c1goodTick).1.last_call_sid = some 7 ∧
     (stepEvent c1goodState c1goodTick).1.call_made_at = some c1goodTick.now ∧
     c1goodTick.now + c1goodState.interval ≤ 3900 ∧
     c1goodTick.now + 120 ≤ 3900) := by
  refine ⟨by decide, by decide, by decide, by decide, by decide, by decide, by decide,
    by decide, ?_⟩
  have h := c1_trigger_then_quiet c1goodState c1goodTick c1goodRest 7 3900 (by decide)
    (by decide) (by decide) (by decide) (by decide) (by decide) (by decide)
  exact ⟨h.1, h.2.1, h.2.2.1, h.2.2.2.1, h.2.2.2.2 (by decide)⟩

/-- Claim C1 as stated is false on the code: with a 60-second check interval,
a call is placed from the idle state at time 1000 (the state records the call
reference and placement time), and a second call is placed at time 1060,
before 120 seconds have elapsed — the trigger of `main.py` 308 only consults
`alert_sent`, not the pending call. -/
theorem c1_counterexample :
    c1state.alert_sent = false ∧ c1state.last_call_sid = none ∧
    (stepEvent c1state c1tickA).2 = true ∧
    (stepEvent c1state c1tickA).1.last_call_sid = some 1 ∧
    (stepEvent c1state c1tickA).1.call_made_at = some 1000 ∧
    placedTimes c1state [c1tickA, c1tickB] = [1000, 1060] ∧
    1060 < 1000 + 120 := by
  decide

theorem triggerStep_of_alert_sent (s : EvState) (i : TickIn) (h : s.alert_sent = true) :
    triggerStep s i = (s, false) := by
  unfold triggerStep
  simp [h]

theorem verifyStep_alert_sent (s : EvState) (i : TickIn) (h : s.alert_sent = true) :
    (verifyStep s i).alert_sent = true := by
  unfold verifyStep
  split
  · split
    · rfl
    · exact h
  · exact h

theorem stepEvent_of_alert_sent (s : EvState) (i : TickIn) (h : s.alert_sent = true) :
    (stepEvent s i).1.alert_sent = true ∧ (stepEvent s i).2 = false := by
  unfold stepEvent
  split
  · constructor
    · show (verifyStep (triggerStep s i).1 i).alert_sent = true
      rw [triggerStep_of_alert_sent s i h]
      exact verifyStep_alert_sent s i h
    · show (triggerStep s i).2 = false
      rw [triggerStep_of_alert_sent s i h]
  · exact ⟨h, rfl⟩

theorem suppressed_forever (l : List TickIn) : ∀ s : EvState, s.alert_sent = true →
    placedTimes s l = [] ∧ (runEvent s l).alert_sent = true := by
  induction l with
  | nil => intro s h; exact ⟨rfl, h⟩
  | cons i rest ih =>
    intro s h
    have hs := stepEvent_of_alert_sent s i h
    constructor
    · show (if (stepEvent s i).2 then [i.now] else []) ++
        placedTimes (stepEvent s i).1 rest = []
      rw [hs.2]
      simp [(ih (stepEvent s i).1 hs.1).1]
    · show (runEvent (stepEvent s i).1 rest).alert_sent = true
      exact (ih _ hs.1).2

/-- Claim C5: when the verification branch fires more than 120 seconds after
call placement and the gateway reports the call answered, `alert_sent` is set,
and from then on no call is ever placed again for this target — regardless of
later available statuses — and the flag stays set. -/
theorem c5_answered_suppresses (s : EvState) (i : TickIn) (rest : List TickIn)
    (hdue : checkDue s i = true)
    (hpend : (triggerStep s i).1.last_call_sid.isSome = true)
    (hlate : 120 < i.now - (triggerStep s i).1.call_made_at.getD 0)
    (hans : i.answered = true) :
    (stepEvent s i).1.alert_sent = true ∧
    placedTimes (stepEvent s i).1 rest = [] ∧
    (runEvent (stepEvent s i).1 rest).alert_sent = true := by
  have hstep : (stepEvent s i).1.alert_sent = true := by
    unfold stepEvent
    rw [hdue]
    show (verifyStep (triggerStep s i).1 i).alert_sent = true
    unfold verifyStep
    rw [hpend, decide_eq_true hlate]
    simp [hans]
  exact ⟨hstep, (suppressed_forever rest _ hstep).1, (suppressed_forever rest _ hstep).2⟩

theorem c5_witness :
    checkDue c5state c5tick = true ∧
    (triggerStep c5state c5tick).1.last_call_sid.isSome = true ∧
    120 < c5tick.now - (triggerStep c5state c5tick).1.call_made_at.getD 0 ∧
    c5tick.answered = true ∧
    ((stepEvent c5state c5tick).1.alert_sent = true ∧
     placedTimes (stepEvent c5state c5tick).1 c5rest = [] ∧
     (runEvent (stepEvent c5state c5tick).1 c5rest).alert_sent = true) :=
  ⟨by decide, by decide, by decide, by decide,
   c5_answered_suppresses c5state c5tick c5rest (by decide) (by decide) (by decide) (by decide)⟩

/-- Claim C8: for a target with a 1800-second interval, the loop checks the
event at a tick iff at least 1800 seconds have elapsed since `last_check`
(so never earlier, and at the first due tick); a tick that is not due leaves
the event state untouched and invokes nothing. -/
theorem c8_interval_gate (s : EvState) (i : TickIn) (h : s.interval = 1800) :
    (checkDue s i = true ↔ s.last_check + 1800 ≤ i.now) ∧
    (checkDue s i = false → stepEvent s i = (s, false)) := by
  constructor
  · have hiff : checkDue s i = true ↔ s.interval ≤ i.now - s.last_check := by
      simp [checkDue]
    rw [hiff, h]
    omega
  · exact stepEvent_not_due s i

theorem c8_witness :
    c8state.interval = 1800 ∧ checkDue c8state c8tick = true ∧
    c8state.last_check + 1800 ≤ c8tick.now :=
  ⟨by decide, by decide,
   (c8_interval_gate c8state c8tick (by decide)).1.mp (by decide)⟩

/-- Claim C9: every target of a tick is processed inside its own exception
guard: the tick produces one output state per registered target, the j-th
output depends only on the j-th target's own state and input (so a raising
target leaves all others unaffected), and the loop proceeds to the next tick
regardless of what happened during this one. -/
theorem c9_fault_isolation (ss : List EvState) (ts : List TargetIn)
    (ins : List (List TargetIn)) (j : Nat) (h : ts.length = ss.length)
    (hj : j < (runTick ss ts).length) (hj1 : j < ss.length) (hj2 : j < ts.length) :
    (runTick ss ts).length = ss.length ∧
    (runTick ss ts).get ⟨j, hj⟩ = catchStep (ss.get ⟨j, hj1⟩) (ts.get ⟨j, hj2⟩) ∧
    runLoop ss (ts :: ins) = runLoop (runTick ss ts) ins := by
  refine ⟨?_, ?_, rfl⟩
  · simp [runTick, List.length_zipWith, h]
  · simp [runTick, List.get_eq_getElem, List.getElem_zipWith]

theorem c9_witness :
    (runTick c9states c9ins).length = c9states.length ∧
    (runTick c9states c9ins).get ⟨1, by decide⟩ =
      catchStep (c9states.get ⟨1, by decide⟩) (c9ins.get ⟨1, by decide⟩) ∧
    runLoop c9states (c9ins :: []) = runLoop (runTick c9states c9ins) [] :=
  c9_fault_isolation c9states c9ins [] 1 (by decide) (by decide) (by decide) (by decide)

/-- Claim C6: the checker is a total function of the fetch outcome — it
always returns a status record and never raises; a network failure yields an
error status titled "Error - Network Issue" with `available=false`, and any
other processing failure yields an error status titled "Error - Parse Issue"
with `available=false`. -/
theorem c6_checker_never_raises (url : String) (now : Nat) (e : String) :
    (check_event_availability url now (FetchOutcome.fetchErr e)).title = netErrorTitle ∧
    (check_event_availability url now (FetchOutcome.fetchErr e)).available = false ∧
    (check_event_availability url now (FetchOutcome.fetchErr e)).error = some e ∧
    (check_event_availability url now (FetchOutcome.otherErr e)).title = parseErrorTitle ∧
    (check_event_availability url now (FetchOutcome.otherErr e)).available = false ∧
    (check_event_availability url now (FetchOutcome.otherErr e)).error = some e :=
  ⟨rfl, rfl, rfl, rfl, rfl, rfl⟩

/-- Claim C7 as stated is false on the code: in an error status the signal
fields do not carry the value `false` — those keys are simply absent from the
error dictionaries of `main.py` 218-224 and 227-233. -/
theorem c7_counterexample :
    (check_event_availability exampleUrl 0 (FetchOutcome.fetchErr exampleErr)).error =
      some exampleErr ∧
    (check_event_availability exampleUrl 0 (FetchOutcome.fetchErr exampleErr)).available =
      false ∧
    (check_event_availability exampleUrl 0 (FetchOutcome.fetchErr exampleErr)).sold_out_text_found =
      none ∧
    (check_event_availability exampleUrl 0 (FetchOutcome.fetchErr exampleErr)).sold_out_text_found ≠
      some false ∧
    (check_event_availability exampleUrl 0 (FetchOutcome.fetchErr exampleErr)).availability_text_found ≠
      some false :=
  ⟨rfl, rfl, rfl, by decide, by decide⟩

/-- Claim C7 (amended): when the error field is present, `available` is false
and every signal field is absent from the record — so no signal ever reads
true. -/
theorem c7_error_status_shape (url : String) (now : Nat) (o : FetchOutcome)
    (h : (check_event_availability url now o).error.isSome = true) :
    (check_event_availability url now o).available = false ∧
    (check_event_availability url now o).sold_out = none ∧
    (check_event_availability url now o).total_buttons_found = none ∧
    (check_event_availability url now o).available_buttons_count = none ∧
    (check_event_availability url now o).sold_out_text_found = none ∧
    (check_event_availability url now o).sold_out_elements_found = none ∧
    (check_event_availability url now o).zero_remaining_found = none ∧
    (check_event_availability url now o).availability_text_found = none := by
  cases o with
  | ok title p => simp [check_event_availability] at h
  | fetchErr e => exact ⟨rfl, rfl, rfl, rfl, rfl, rfl, rfl, rfl⟩
  | otherErr e => exact ⟨rfl, rfl, rfl, rfl, rfl, rfl, rfl, rfl⟩

theorem c7_witness :
    (check_event_availability exampleUrl 0 (FetchOutcome.otherErr exampleErr)).error.isSome =
      true ∧
    ((check_event_availability exampleUrl 0 (FetchOutcome.otherErr exampleErr)).available = false ∧
     (check_event_availability exampleUrl 0 (FetchOutcome.otherErr exampleErr)).sold_out = none ∧
     (check_event_availability exampleUrl 0 (FetchOutcome.otherErr exampleErr)).total_buttons_found = none ∧
     (check_event_availability exampleUrl 0 (FetchOutcome.otherErr exampleErr)).available_buttons_count = none ∧
     (check_event_availability exampleUrl 0 (FetchOutcome.otherErr exampleErr)).sold_out_text_found = none ∧
     (check_event_availability exampleUrl 0 (FetchOutcome.otherErr exampleErr)).sold_out_elements_found = none ∧
     (check_event_availability exampleUrl 0 (FetchOutcome.otherErr exampleErr)).zero_remaining_found = none ∧
     (check_event_availability exampleUrl 0 (FetchOutcome.otherErr exampleErr)).availability_text_found = none) :=
  ⟨rfl, c7_error_status_shape exampleUrl 0 (FetchOutcome.otherErr exampleErr) rfl⟩

/-- Claim C10: a successful (error-free) status never reports `available` and
`sold_out` both true — availability implies the definitely-sold-out flag is
false. -/
theorem c10_available_not_sold_out (url : String) (now : Nat) (o : FetchOutcome)
    (he : (check_event_availability url now o).error = none)
    (ha : (check_event_availability url now o).available = true) :
    (check_event_availability url now o).sold_out = some false := by
  cases o with
  | ok title p =>
    have hav : is_available p = true := ha
    have hnot : is_definitely_sold_out p = false := by
      unfold is_available at hav
      simp only [Bool.and_eq_true] at hav
      simpa using hav.2
    show some (is_definitely_sold_out p) = some false
    rw [hnot]
  | fetchErr e => simp [check_event_availability] at ha
  | otherErr e => simp [check_event_availability] at ha

theorem c10_witness :
    (check_event_availability exampleUrl 5 (FetchOutcome.ok exampleTitle examplePage10)).error =
      none ∧
    (check_event_availability exampleUrl 5 (FetchOutcome.ok exampleTitle examplePage10)).available =
      true ∧
    (check_event_availability exampleUrl 5 (FetchOutcome.ok exampleTitle examplePage10)).sold_out =
      some false :=
  ⟨by decide, by decide,
   c10_available_not_sold_out exampleUrl 5 (FetchOutcome.ok exampleTitle examplePage10)
     (by decide) (by decide)⟩
